import Mathlib

/-!
# crimson::mgr::Client — reconnect / heartbeat state machine

A shallow embedding of `src/crimson/mgr/client.cc`.  Every member function of
`Client` becomes a function from the client state (and the values read from its
collaborators during the call) to a `Result`: the state after the call, the
ordered list of calls made on the collaborators (connections, messenger, timer,
logger) and the way the call ended.  Each entry point runs to completion: the
continuations chained with `.then` / `.finally` are run in order, in one step.
The future of `close()` resolves and `connect` returns its handle at once (the
spec: failures surface later, through a reset notification); whether the future
of a `send` resolves or fails is an input of the call (`Env.send_ok`).
-/

namespace crimson.mgr

/-! ## Collaborators declared outside `client.cc` -/

/-- Modelled from the spec: the ManagerAddress of the data model, compared by
equality and used as a connect target.  It stands for `entity_addr_t`
(msg/msg_types.h, not among the sources): `type` is its address type tag and
`addr` stands for the rest of the address (nonce and socket address). -/
structure entity_addr_t where
  type : Nat
  addr : Nat
deriving DecidableEq

/-- Address type tag `entity_addr_t::TYPE_NONE`, the tag of a default-constructed address. -/
def TYPE_NONE : Nat := 0

/-- Address type tag `entity_addr_t::TYPE_LEGACY`. -/
def TYPE_LEGACY : Nat := 1

/-- Address type tag `entity_addr_t::TYPE_MSGR2`. -/
def TYPE_MSGR2 : Nat := 2

/-- The default-constructed `entity_addr_t()`. -/
def entity_addr_t.blank : entity_addr_t := ⟨TYPE_NONE, 0⟩

/-- Modelled from the spec: the ordered sequence of ManagerAddress of a
ClusterMapView.  It stands for `entity_addrvec_t` (msg/msg_types.h, not among
the sources), whose two accessors called by `client.cc` are `front()` (line 76)
and `legacy_addr()` (line 92). -/
structure entity_addrvec_t where
  v : List entity_addr_t
deriving DecidableEq

/-- Modelled from the spec: "the first active address", the accessor
`entity_addrvec_t::front()`: the first entry, the default address when the
vector is empty. -/
def entity_addrvec_t.front (a : entity_addrvec_t) : entity_addr_t :=
  match a.v with
  | [] => entity_addr_t.blank
  | x :: _ => x

/-- Modelled from the spec: the accessor `entity_addrvec_t::addr_of_type(type)`
behind `legacy_addr()`: the first entry carrying the given type tag, the
default address when there is none. -/
def entity_addrvec_t.addr_of_type (a : entity_addrvec_t) (t : Nat) : entity_addr_t :=
  match a.v.find? (fun x => x.type == t) with
  | some x => x
  | none => entity_addr_t.blank

/-- Modelled from the spec: the accessor `entity_addrvec_t::legacy_addr()`,
which is `addr_of_type(TYPE_LEGACY)`.  The spec calls the address compared by
the map handler "the first active address"; the source calls this accessor
there, and `front()` in `reconnect`. -/
def entity_addrvec_t.legacy_addr (a : entity_addrvec_t) : entity_addr_t :=
  a.addr_of_type TYPE_LEGACY

/-- Modelled from the spec: the ClusterMapView (`MgrMap`, not among the
sources), with the two fields read through `get_available()` and
`get_active_addrs()`. -/
structure MgrMap where
  available : Bool
  active_addrs : entity_addrvec_t
deriving DecidableEq

/-- Modelled from the spec: a ConnectionHandle (`crimson::net::ConnectionRef`,
not among the sources).  `id` is the identity of the pointed-to connection,
`peer_addr` what `get_peer_addr()` returns. -/
structure Connection where
  id : Nat
  peer_addr : entity_addr_t
deriving DecidableEq

/-- Modelled from the spec: the transport collaborator (`crimson::net::Messenger`,
not among the sources); `next_id` is the identity its next opened connection
gets. -/
structure Messenger where
  next_id : Nat
deriving DecidableEq

/-- Peer type constant `CEPH_ENTITY_TYPE_MGR`. -/
def CEPH_ENTITY_TYPE_MGR : Nat := 16

/-- Modelled from the spec: "open connection to address (returns a handle)",
`Messenger::connect(peer, peer_type)`: the handle is a new one, bound to `peer`. -/
def Messenger.connect (m : Messenger) (peer : entity_addr_t) (_peer_type : Nat) :
    Connection × Messenger :=
  (⟨m.next_id, peer⟩, ⟨m.next_id + 1⟩)

/-- Message kinds that reach `ms_dispatch`: `MMgrMap` carries a map,
`MMgrConfigure` its `stats_period`, any other message only its type. -/
inductive Message where
  | MMgrMap (map : MgrMap)
  | MMgrConfigure (stats_period : Nat)
  | other (type : Nat)
deriving DecidableEq

/-- Values the client reads from its surroundings during one call:
`local_conf()->name.get_id()`, the message returned by
`with_stats.get_stats()`, and whether the future of the `send` made during the
call resolves (`true`) or fails (`false`). -/
structure Env where
  name_id : String
  pg_stats : Nat
  send_ok : Bool
deriving DecidableEq

/-- Calls made on the collaborators, in the order they are made. -/
inductive Effect where
  /-- The call `conn->close()` on the given connection. -/
  | conn_close (c : Connection)
  /-- The call `msgr.connect(peer, peer_type)` and the handle it returned. -/
  | msgr_connect (peer : entity_addr_t) (peer_type : Nat) (c : Connection)
  /-- The call `conn->send(m)` for an `MMgrOpen` with the given `daemon_name`. -/
  | send_mgr_open (c : Connection) (daemon_name : String)
  /-- The call `conn->send(pg_stats)` for the message of the statistics source. -/
  | send_stats (c : Connection) (pg_stats : Nat)
  /-- The warning "No active mgr available yet". -/
  | log_warn
  /-- The info line of `handle_mgr_conf`. -/
  | log_info
  /-- The call `tick_timer.arm(period)`; `was_armed` is `tick_timer.armed()` at the call. -/
  | timer_arm (was_armed : Bool) (period : Nat)
deriving DecidableEq

/-- How a call ended: its future resolved, its future failed, or
`seastar::with_gate` threw `gate_closed_exception`. -/
inductive Outcome where
  | ready
  | failed
  | gate_closed
deriving DecidableEq

/-! ## The client -/

/-- The members of `Client`: the messenger, the held connection (`none` is the
null pointer), the stored map, the reporting period in seconds, the timer
(`none` is disarmed, `some d` is armed with delay `d`) and whether the gate has
been closed. -/
structure Client where
  msgr : Messenger
  conn : Option Connection
  mgrmap : MgrMap
  tick_period : Nat
  tick_timer : Option Nat
  gate_closed : Bool
deriving DecidableEq

/-- State, calls made and outcome of one call. -/
structure Result where
  st : Client
  log : List Effect
  out : Outcome
deriving DecidableEq

/-- The pointer comparison `conn == c`. -/
def Client.holds (s : Client) (c : Connection) : Bool :=
  match s.conn with
  | some d => d.id == c.id
  | none => false

/-- The state after `Client::Client`: null connection, default map, period
zero, timer disarmed, gate open. -/
def Client.init (msgr : Messenger) : Client :=
  { msgr := msgr, conn := none, mgrmap := ⟨false, ⟨[]⟩⟩, tick_period := 0,
    tick_timer := none, gate_closed := false }

/-- Embedding of `Client::start` (lines 32-35). -/
def Client.start (s : Client) : Result :=
  ⟨s, [], .ready⟩

/-- Embedding of `Client::stop` (lines 37-46): close the gate, then close the
held connection if there is one. The pointer `conn` is not reset. -/
def Client.stop (s : Client) : Result :=
  let s1 := { s with gate_closed := true }
  match s1.conn with
  | some c => ⟨s1, [.conn_close c], .ready⟩
  | none => ⟨s1, [], .ready⟩

/-- Embedding of `Client::ms_handle_reset` (lines 61-67). -/
def Client.ms_handle_reset (s : Client) (c : Connection) : Result :=
  if s.holds c then ⟨{ s with conn := none }, [], .ready⟩
  else ⟨s, [], .ready⟩

/-- The first future of `reconnect` (line 71): `conn ? conn->close() : now()`. -/
def Client.close_held (s : Client) : List Effect :=
  match s.conn with
  | some c => [.conn_close c]
  | none => []

/-- Embedding of `Client::reconnect` (lines 69-83).  After the close, an
unavailable map ends the call with a warning, `conn` untouched; otherwise the
messenger connects to `front()` of the active addresses, the handle is stored
in `conn` and an `MMgrOpen` carrying the local name is sent on it; the future
of that send is the result. -/
def Client.reconnect (env : Env) (s : Client) : Result :=
  if !s.mgrmap.available then
    ⟨s, s.close_held ++ [.log_warn], .ready⟩
  else
    let peer := s.mgrmap.active_addrs.front
    let cm := s.msgr.connect peer CEPH_ENTITY_TYPE_MGR
    ⟨{ s with msgr := cm.2, conn := some cm.1 },
     s.close_held ++ [.msgr_connect peer CEPH_ENTITY_TYPE_MGR cm.1,
                      .send_mgr_open cm.1 env.name_id],
     if env.send_ok then .ready else .failed⟩

/-- Embedding of `Client::handle_mgr_map` (lines 85-97). -/
def Client.handle_mgr_map (env : Env) (s : Client) (m : MgrMap) : Result :=
  let s1 := { s with mgrmap := m }
  match s1.conn with
  | none => s1.reconnect env
  | some c =>
    if c.peer_addr ≠ s1.mgrmap.active_addrs.legacy_addr then s1.reconnect env
    else ⟨s1, [], .ready⟩

/-- The `finally` block of `tick` (lines 116-118 and 122-124): arm the timer
with the period when the period is not zero. -/
def Client.rearm (s : Client) : Client × List Effect :=
  if s.tick_period ≠ 0 then
    ({ s with tick_timer := some s.tick_period },
     [.timer_arm s.tick_timer.isSome s.tick_period])
  else (s, [])

/-- Embedding of `Client::tick` (lines 110-128).  `with_gate` throws when the
gate is closed, before the body runs.  Otherwise the body sends the statistics
on the held connection, or reconnects when there is none; the `finally` block
runs whatever the outcome of that future, and the future is then discarded. -/
def Client.tick (env : Env) (s : Client) : Result :=
  if s.gate_closed then ⟨s, [], .gate_closed⟩
  else
    match s.conn with
    | some c =>
      let a := s.rearm
      ⟨a.1, [.send_stats c env.pg_stats] ++ a.2, .ready⟩
    | none =>
      let r := s.reconnect env
      let a := r.st.rearm
      ⟨a.1, r.log ++ a.2, .ready⟩

/-- Embedding of `Client::handle_mgr_conf` (lines 99-108).  An exception thrown
by `tick()` leaves the handler. -/
def Client.handle_mgr_conf (env : Env) (s : Client) (stats_period : Nat) : Result :=
  let s1 := { s with tick_period := stats_period }
  if s1.tick_period ≠ 0 ∧ ¬ s1.tick_timer.isSome then
    let r := s1.tick env
    ⟨r.st, .log_info :: r.log, r.out⟩
  else ⟨s1, [.log_info], .ready⟩

/-- Embedding of `Client::ms_dispatch` (lines 48-59). -/
def Client.ms_dispatch (env : Env) (s : Client) (m : Message) : Result :=
  match m with
  | .MMgrMap map => s.handle_mgr_map env map
  | .MMgrConfigure p => s.handle_mgr_conf env p
  | .other _ => ⟨s, [], .ready⟩

/-- Modelled from the spec: the Periodic Timer is single-shot, so an armed
`tick_timer` that expires is disarmed and then runs its callback, which the
constructor (line 29) sets to `tick()`.  A disarmed timer does not fire. -/
def Client.timer_fire (env : Env) (s : Client) : Result :=
  match s.tick_timer with
  | none => ⟨s, [], .ready⟩
  | some _ => ({ s with tick_timer := none }).tick env

/-! ## Sequences of events -/

/-- The events that drive the client, each handled to completion. -/
inductive Event where
  | map_update (m : MgrMap)
  | configure (stats_period : Nat)
  | reset (c : Connection)
  | timer
deriving DecidableEq

/-- One event handled by its entry point. -/
def Client.handle (env : Env) (s : Client) (e : Event) : Result :=
  match e with
  | .map_update m => s.handle_mgr_map env m
  | .configure p => s.handle_mgr_conf env p
  | .reset c => s.ms_handle_reset c
  | .timer => s.timer_fire env

/-- A sequence of events handled one after the other; the result is the final
state and all calls made, in order. -/
def Client.run (s : Client) : List (Env × Event) → Client × List Effect
  | [] => (s, [])
  | (env, e) :: es =>
    let r := s.handle env e
    let rest := r.st.run es
    (rest.1, r.log ++ rest.2)

/-- Whether a call is a send on a connection (handshake or statistics). -/
def Effect.isSend : Effect → Bool
  | .send_mgr_open _ _ => true
  | .send_stats _ _ => true
  | _ => false

/-- Whether a call is a statistics send. -/
def Effect.isStatsSend : Effect → Bool
  | .send_stats _ _ => true
  | _ => false

/-- Whether a call opens a connection. -/
def Effect.isOpen : Effect → Bool
  | .msgr_connect _ _ _ => true
  | _ => false

/-- Whether a call closes a connection. -/
def Effect.isClose : Effect → Bool
  | .conn_close _ => true
  | _ => false

/-- Whether a call arms the timer. -/
def Effect.isArm : Effect → Bool
  | .timer_arm _ _ => true
  | _ => false

/-- Whether a call is the handshake send, the `MMgrOpen`. -/
def Effect.isMgrOpen : Effect → Bool
  | .send_mgr_open _ _ => true
  | _ => false

/-- Whether a call arms the timer while `tick_timer.armed()` holds. -/
def Effect.isArmWhileArmed : Effect → Bool
  | .timer_arm true _ => true
  | _ => false

/-- What reaches the client in its life: an event, or the call of `stop()`. -/
inductive Input where
  | event (e : Event)
  | stop
deriving DecidableEq

/-- One input handled to completion. -/
def Client.step (env : Env) (s : Client) (i : Input) : Result :=
  match i with
  | .event e => s.handle env e
  | .stop => s.stop

/-- The live connections after a call, given those before it: `msgr.connect`
adds the handle it returns, `conn->close()` removes the closed handle.
Connections are named by their identity. -/
def Effect.live (live : List Nat) : Effect → List Nat
  | .msgr_connect _ _ c => c.id :: live
  | .conn_close c => live.filter (fun i => i != c.id)
  | _ => live

/-- The live connections once an input has arrived: a reset notification
removes the connection the transport reports as reset. -/
def Input.live (live : List Nat) : Input → List Nat
  | .event (.reset c) => live.filter (fun i => i != c.id)
  | _ => live

/-- A sequence of inputs handled one after the other, with the list of live
connections (opened by the client, neither closed by it nor reported reset)
kept along the way. -/
def Client.runLive (s : Client) (live : List Nat) : List (Env × Input) → Client × List Nat
  | [] => (s, live)
  | (env, i) :: rest =>
    let r := s.step env i
    r.st.runLive (r.log.foldl Effect.live (i.live live)) rest

/-- Whether a map names a connect target: unavailable, or with an address
list that is not empty. -/
def MgrMap.hasTarget (m : MgrMap) : Bool :=
  !m.available || !m.active_addrs.v.isEmpty

/-- Whether an event, when it is a map update, carries a map that names a target. -/
def Event.hasTarget : Event → Bool
  | .map_update m => m.hasTarget
  | _ => true

end crimson.mgr

namespace crimson.mgr

/-! ## Shared lemmas -/

/-- When the map is unavailable `reconnect` closes the held connection, warns,
and leaves every member as it was. -/
theorem reconnect_unavailable (env : Env) (s : Client) (h : s.mgrmap.available = false) :
    s.reconnect env = ⟨s, s.close_held ++ [.log_warn], .ready⟩ := by
  simp [Client.reconnect, h]

/-- When the map is available `reconnect` closes the held connection, connects
to `front()` and sends the `MMgrOpen`. -/
theorem reconnect_available (env : Env) (s : Client) (h : s.mgrmap.available = true) :
    s.reconnect env =
      ⟨{ s with msgr := ⟨s.msgr.next_id + 1⟩,
                conn := some ⟨s.msgr.next_id, s.mgrmap.active_addrs.front⟩ },
       s.close_held ++
         [.msgr_connect s.mgrmap.active_addrs.front CEPH_ENTITY_TYPE_MGR
            ⟨s.msgr.next_id, s.mgrmap.active_addrs.front⟩,
          .send_mgr_open ⟨s.msgr.next_id, s.mgrmap.active_addrs.front⟩ env.name_id],
       if env.send_ok then .ready else .failed⟩ := by
  simp [Client.reconnect, h, Messenger.connect]

/-- On a non-empty vector `front()` is the head of the list. -/
theorem front_eq_head (a : entity_addrvec_t) (h : a.v ≠ []) : a.front = a.v.head h := by
  obtain ⟨v⟩ := a
  cases v with
  | nil => exact absurd rfl h
  | cons x rest => rfl

/-- A map update whose map is unavailable never changes the held handle. -/
theorem handle_mgr_map_unavailable_conn (env : Env) (s : Client) (addrs : entity_addrvec_t) :
    (s.handle_mgr_map env ⟨false, addrs⟩).st.conn = s.conn := by
  unfold Client.handle_mgr_map
  cases hc : s.conn with
  | none => simp [hc, Client.reconnect]
  | some c =>
    by_cases hp : c.peer_addr = addrs.legacy_addr
    · simp [hc, hp]
    · simp [hc, hp, Client.reconnect]

/-! ## C1 -/

/-- C1 (the code departs from the claim): from the initial, Disconnected state
the updates `{available: true, addrs: [A]}` then `{available: false, addrs: []}`
are handled; the last one has `available = false`, `reconnect` closes the
A-connection and warns, yet the handle is still the A-connection afterwards,
not `none`. -/
theorem C1_unavailable_update_keeps_handle :
    Client.run (Client.init ⟨0⟩)
        [(⟨"osd.0", 7, true⟩, .map_update ⟨true, ⟨[⟨TYPE_LEGACY, 1⟩]⟩⟩),
         (⟨"osd.0", 7, true⟩, .map_update ⟨false, ⟨[]⟩⟩)]
      = ({ msgr := ⟨1⟩, conn := some ⟨0, ⟨TYPE_LEGACY, 1⟩⟩, mgrmap := ⟨false, ⟨[]⟩⟩,
           tick_period := 0, tick_timer := none, gate_closed := false },
         [.msgr_connect ⟨TYPE_LEGACY, 1⟩ CEPH_ENTITY_TYPE_MGR ⟨0, ⟨TYPE_LEGACY, 1⟩⟩,
          .send_mgr_open ⟨0, ⟨TYPE_LEGACY, 1⟩⟩ "osd.0",
          .conn_close ⟨0, ⟨TYPE_LEGACY, 1⟩⟩,
          .log_warn]) := by
  decide

/-! ## C2 -/

/-- C2 (the code departs from the claim): from the initial state the update
`{available: true, addrs: [A]}`, A the legacy address 1, connects the client
to A (handle 0).  The next update is available and its first address is the
msgr2 address B = 2, with B ≠ A, so `reconnect()` would connect to B; but A is
still the list's legacy address, the one `handle_mgr_map` compares the held
peer with, so the handler does not reconnect: no close on the A-connection, no
connect to B, and the handle to A is kept. -/
theorem C2_first_addr_changes_no_reconnect :
    ((Client.init ⟨0⟩).run
        [(⟨"osd.0", 7, true⟩, .map_update ⟨true, ⟨[⟨TYPE_LEGACY, 1⟩]⟩⟩)]).1.conn
      = some ⟨0, ⟨TYPE_LEGACY, 1⟩⟩
    ∧ (⟨true, ⟨[⟨TYPE_MSGR2, 2⟩, ⟨TYPE_LEGACY, 1⟩]⟩⟩ : MgrMap).available = true
    ∧ (⟨true, ⟨[⟨TYPE_MSGR2, 2⟩, ⟨TYPE_LEGACY, 1⟩]⟩⟩ : MgrMap).active_addrs.front
      = ⟨TYPE_MSGR2, 2⟩
    ∧ (⟨TYPE_MSGR2, 2⟩ : entity_addr_t) ≠ ⟨TYPE_LEGACY, 1⟩
    ∧ (Client.handle_mgr_map ⟨"osd.0", 7, true⟩
        ((Client.init ⟨0⟩).run
          [(⟨"osd.0", 7, true⟩, .map_update ⟨true, ⟨[⟨TYPE_LEGACY, 1⟩]⟩⟩)]).1
        ⟨true, ⟨[⟨TYPE_MSGR2, 2⟩, ⟨TYPE_LEGACY, 1⟩]⟩⟩).log = []
    ∧ (Client.handle_mgr_map ⟨"osd.0", 7, true⟩
        ((Client.init ⟨0⟩).run
          [(⟨"osd.0", 7, true⟩, .map_update ⟨true, ⟨[⟨TYPE_LEGACY, 1⟩]⟩⟩)]).1
        ⟨true, ⟨[⟨TYPE_MSGR2, 2⟩, ⟨TYPE_LEGACY, 1⟩]⟩⟩).st.conn
      = some ⟨0, ⟨TYPE_LEGACY, 1⟩⟩
    ∧ ((Client.reconnect ⟨"osd.0", 7, true⟩
        (Client.handle_mgr_map ⟨"osd.0", 7, true⟩
          ((Client.init ⟨0⟩).run
            [(⟨"osd.0", 7, true⟩, .map_update ⟨true, ⟨[⟨TYPE_LEGACY, 1⟩]⟩⟩)]).1
          ⟨true, ⟨[⟨TYPE_MSGR2, 2⟩, ⟨TYPE_LEGACY, 1⟩]⟩⟩).st).log.filter Effect.isOpen
      = [.msgr_connect ⟨TYPE_MSGR2, 2⟩ CEPH_ENTITY_TYPE_MGR ⟨1, ⟨TYPE_MSGR2, 2⟩⟩]) := by
  decide

/-! ## C3 -/

/-- C3 (the code departs from the claim): from the initial state the update
`{available: true, addrs: [A]}` with A an address of type msgr2 connects the
client to A (handle 0).  The same update again has first address A, the peer
of the held handle, yet the handler compares with `legacy_addr()`, which is the
default address here, and reconnects: handle 0 is closed, handle 1 is opened to
A, the `MMgrOpen` is sent again and the held handle changes. -/
theorem C3_same_first_addr_reconnects :
    ((Client.init ⟨0⟩).handle_mgr_map ⟨"osd.0", 7, true⟩ ⟨true, ⟨[⟨TYPE_MSGR2, 1⟩]⟩⟩).st.conn
        = some ⟨0, ⟨TYPE_MSGR2, 1⟩⟩
    ∧ (⟨true, ⟨[⟨TYPE_MSGR2, 1⟩]⟩⟩ : MgrMap).active_addrs.front = ⟨TYPE_MSGR2, 1⟩
    ∧ (⟨true, ⟨[⟨TYPE_MSGR2, 1⟩]⟩⟩ : MgrMap).active_addrs.legacy_addr = entity_addr_t.blank
    ∧ (((Client.init ⟨0⟩).handle_mgr_map ⟨"osd.0", 7, true⟩ ⟨true, ⟨[⟨TYPE_MSGR2, 1⟩]⟩⟩).st.handle_mgr_map
          ⟨"osd.0", 7, true⟩ ⟨true, ⟨[⟨TYPE_MSGR2, 1⟩]⟩⟩).log =
        [.conn_close ⟨0, ⟨TYPE_MSGR2, 1⟩⟩,
         .msgr_connect ⟨TYPE_MSGR2, 1⟩ CEPH_ENTITY_TYPE_MGR ⟨1, ⟨TYPE_MSGR2, 1⟩⟩,
         .send_mgr_open ⟨1, ⟨TYPE_MSGR2, 1⟩⟩ "osd.0"]
    ∧ (((Client.init ⟨0⟩).handle_mgr_map ⟨"osd.0", 7, true⟩ ⟨true, ⟨[⟨TYPE_MSGR2, 1⟩]⟩⟩).st.handle_mgr_map
          ⟨"osd.0", 7, true⟩ ⟨true, ⟨[⟨TYPE_MSGR2, 1⟩]⟩⟩).st.conn = some ⟨1, ⟨TYPE_MSGR2, 1⟩⟩ := by
  decide

end crimson.mgr

namespace crimson.mgr

/-! ## C4 -/

/-- C4: the four-step scenario, from any Disconnected state with the timer
disarmed and the gate open whose messenger hands out handle `n` next.
(1) The update `{available: true, addrs: [A]}` makes one connect, to A, and one
`MMgrOpen` send, and handle `n` is held.  (2) The configuration with period 10
adds one statistics send on handle `n` and arms the timer for 10.  (3) The reset
of handle `n` adds no call and leaves the client Disconnected.  (4) The timer
firing adds one connect, to A, with its `MMgrOpen` send, no statistics send,
and arms the timer for 10 again.  The outcomes of the sends do not matter. -/
theorem C4_scenario (e1 e2 e3 e4 : Env) (s : Client) (A : entity_addr_t)
    (hc : s.conn = none) (ht : s.tick_timer = none) (hg : s.gate_closed = false) :
    -- (1)
    (s.run [(e1, .map_update ⟨true, ⟨[A]⟩⟩)]).2 =
        [.msgr_connect A CEPH_ENTITY_TYPE_MGR ⟨s.msgr.next_id, A⟩,
         .send_mgr_open ⟨s.msgr.next_id, A⟩ e1.name_id]
    ∧ (s.run [(e1, .map_update ⟨true, ⟨[A]⟩⟩)]).1.conn = some ⟨s.msgr.next_id, A⟩
    -- (2)
    ∧ (s.run [(e1, .map_update ⟨true, ⟨[A]⟩⟩), (e2, .configure 10)]).2 =
        [.msgr_connect A CEPH_ENTITY_TYPE_MGR ⟨s.msgr.next_id, A⟩,
         .send_mgr_open ⟨s.msgr.next_id, A⟩ e1.name_id,
         .log_info,
         .send_stats ⟨s.msgr.next_id, A⟩ e2.pg_stats,
         .timer_arm false 10]
    ∧ (s.run [(e1, .map_update ⟨true, ⟨[A]⟩⟩), (e2, .configure 10)]).1.tick_timer = some 10
    -- (3)
    ∧ (s.run [(e1, .map_update ⟨true, ⟨[A]⟩⟩), (e2, .configure 10),
              (e3, .reset ⟨s.msgr.next_id, A⟩)]).2 =
        [.msgr_connect A CEPH_ENTITY_TYPE_MGR ⟨s.msgr.next_id, A⟩,
         .send_mgr_open ⟨s.msgr.next_id, A⟩ e1.name_id,
         .log_info,
         .send_stats ⟨s.msgr.next_id, A⟩ e2.pg_stats,
         .timer_arm false 10]
    ∧ (s.run [(e1, .map_update ⟨true, ⟨[A]⟩⟩), (e2, .configure 10),
              (e3, .reset ⟨s.msgr.next_id, A⟩)]).1.conn = none
    -- (4)
    ∧ (s.run [(e1, .map_update ⟨true, ⟨[A]⟩⟩), (e2, .configure 10),
              (e3, .reset ⟨s.msgr.next_id, A⟩), (e4, .timer)]).2 =
        [.msgr_connect A CEPH_ENTITY_TYPE_MGR ⟨s.msgr.next_id, A⟩,
         .send_mgr_open ⟨s.msgr.next_id, A⟩ e1.name_id,
         .log_info,
         .send_stats ⟨s.msgr.next_id, A⟩ e2.pg_stats,
         .timer_arm false 10,
         .msgr_connect A CEPH_ENTITY_TYPE_MGR ⟨s.msgr.next_id + 1, A⟩,
         .send_mgr_open ⟨s.msgr.next_id + 1, A⟩ e4.name_id,
         .timer_arm false 10]
    ∧ (s.run [(e1, .map_update ⟨true, ⟨[A]⟩⟩), (e2, .configure 10),
              (e3, .reset ⟨s.msgr.next_id, A⟩), (e4, .timer)]).1.tick_timer = some 10
    ∧ (s.run [(e1, .map_update ⟨true, ⟨[A]⟩⟩), (e2, .configure 10),
              (e3, .reset ⟨s.msgr.next_id, A⟩), (e4, .timer)]).1.conn
        = some ⟨s.msgr.next_id + 1, A⟩ := by
  simp [Client.run, Client.handle, Client.handle_mgr_map, Client.handle_mgr_conf,
    Client.ms_handle_reset, Client.timer_fire, Client.tick, Client.reconnect, Client.rearm,
    Client.close_held, Client.holds, Messenger.connect, entity_addrvec_t.front, hc, ht, hg]

/-- Witness for C4: the scenario run from the initial state, A the legacy
address 1, the second and the fourth send failing. -/
theorem C4_scenario_witness :
    (Client.init ⟨0⟩).conn = none
    ∧ (Client.init ⟨0⟩).tick_timer = none
    ∧ (Client.init ⟨0⟩).gate_closed = false
    ∧ ((Client.init ⟨0⟩).run
        [(⟨"osd.0", 7, true⟩, .map_update ⟨true, ⟨[⟨TYPE_LEGACY, 1⟩]⟩⟩),
         (⟨"osd.0", 8, false⟩, .configure 10),
         (⟨"osd.0", 9, true⟩, .reset ⟨(Client.init ⟨0⟩).msgr.next_id, ⟨TYPE_LEGACY, 1⟩⟩),
         (⟨"osd.0", 9, false⟩, .timer)]).1.tick_timer = some 10 :=
  ⟨rfl, rfl, rfl,
   (C4_scenario ⟨"osd.0", 7, true⟩ ⟨"osd.0", 8, false⟩ ⟨"osd.0", 9, true⟩ ⟨"osd.0", 9, false⟩
      (Client.init ⟨0⟩) ⟨TYPE_LEGACY, 1⟩ rfl rfl rfl).2.2.2.2.2.2.2.1⟩

/-! ## C5 -/

/-- C5: `ms_handle_reset(c)` clears the handle exactly when `c` is the held
handle (same identity) and leaves it alone otherwise, also for a handle with
another identity and the peer address of the held one; it makes no call at all
and leaves the messenger, the map, the period, the timer and the gate as they
were. -/
theorem C5_ms_handle_reset (s : Client) (c : Connection) :
    (s.ms_handle_reset c).st.conn = (if s.holds c then none else s.conn)
    ∧ (∀ d : Connection, s.conn = some d → d.id = c.id → (s.ms_handle_reset c).st.conn = none)
    ∧ (∀ d : Connection, s.conn = some d → d.id ≠ c.id →
        (s.ms_handle_reset c).st.conn = some d)
    ∧ (s.conn = none → (s.ms_handle_reset c).st.conn = none)
    ∧ (s.ms_handle_reset c).log = []
    ∧ (s.ms_handle_reset c).st.mgrmap = s.mgrmap
    ∧ (s.ms_handle_reset c).st.tick_period = s.tick_period
    ∧ (s.ms_handle_reset c).st.tick_timer = s.tick_timer
    ∧ (s.ms_handle_reset c).st.msgr = s.msgr
    ∧ (s.ms_handle_reset c).st.gate_closed = s.gate_closed
    ∧ (s.ms_handle_reset c).out = .ready := by
  unfold Client.ms_handle_reset Client.holds
  cases hc : s.conn with
  | none => simp [hc]
  | some d =>
    by_cases hid : d.id = c.id
    · simp [hid]
    · simp [hid, hc]

/-! ## C6 -/

/-- C6: with the timer disarmed and the gate open, a configuration with period
`P > 0` stores `P` and runs `tick()` inside the handler.  Holding a connection
`c`, the calls are one statistics send on `c` and the arming of the timer;
holding none, the calls are those of one `reconnect()` and the arming.  Either
way the timer ends armed with delay `P`. -/
theorem C6_handle_mgr_conf_ticks (env : Env) (s : Client) (P : Nat)
    (ht : s.tick_timer = none) (hg : s.gate_closed = false) (hP : 0 < P) :
    (s.handle_mgr_conf env P).st.tick_period = P
    ∧ (s.handle_mgr_conf env P).st.tick_timer = some P
    ∧ (s.handle_mgr_conf env P).out = .ready
    ∧ (s.handle_mgr_conf env P).st = (Client.tick env { s with tick_period := P }).st
    ∧ (s.handle_mgr_conf env P).log =
        .log_info :: (Client.tick env { s with tick_period := P }).log
    ∧ (∀ c : Connection, s.conn = some c →
        (s.handle_mgr_conf env P).log =
          [.log_info, .send_stats c env.pg_stats, .timer_arm false P]
        ∧ (s.handle_mgr_conf env P).st.conn = some c)
    ∧ (s.conn = none →
        (s.handle_mgr_conf env P).log =
          .log_info :: ((Client.reconnect env { s with tick_period := P }).log
            ++ [.timer_arm false P])
        ∧ (s.handle_mgr_conf env P).st =
          { (Client.reconnect env { s with tick_period := P }).st with tick_timer := some P }) := by
  have hP0 : P ≠ 0 := Nat.pos_iff_ne_zero.mp hP
  refine ⟨?_, ?_, ?_, ?_, ?_, ?_, ?_⟩
  · cases hc : s.conn <;> by_cases hav : s.mgrmap.available = true <;>
      simp [Client.handle_mgr_conf, Client.tick, Client.rearm, Client.reconnect, ht, hg, hP0,
        hc, hav]
  · cases hc : s.conn <;> by_cases hav : s.mgrmap.available = true <;>
      simp [Client.handle_mgr_conf, Client.tick, Client.rearm, Client.reconnect, ht, hg, hP0,
        hc, hav]
  · cases hc : s.conn <;>
      simp [Client.handle_mgr_conf, Client.tick, ht, hg, hP0, hc]
  · simp [Client.handle_mgr_conf, ht, hP0]
  · simp [Client.handle_mgr_conf, ht, hP0]
  · intro c hc
    simp [Client.handle_mgr_conf, Client.tick, Client.rearm, ht, hg, hP0, hc]
  · intro hc
    by_cases hav : s.mgrmap.available = true <;>
      simp [Client.handle_mgr_conf, Client.tick, Client.rearm, Client.reconnect, ht, hg, hP0,
        hc, hav]

/-- Witness for C6: a held connection, timer disarmed, gate open, period 5. -/
theorem C6_handle_mgr_conf_ticks_witness :
    (({ msgr := ⟨1⟩, conn := some ⟨0, ⟨TYPE_LEGACY, 1⟩⟩, mgrmap := ⟨true, ⟨[⟨TYPE_LEGACY, 1⟩]⟩⟩,
        tick_period := 0, tick_timer := none, gate_closed := false } : Client).tick_timer = none)
    ∧ (({ msgr := ⟨1⟩, conn := some ⟨0, ⟨TYPE_LEGACY, 1⟩⟩, mgrmap := ⟨true, ⟨[⟨TYPE_LEGACY, 1⟩]⟩⟩,
            tick_period := 0, tick_timer := none, gate_closed := false } : Client).gate_closed = false)
    ∧ 0 < 5
    ∧ (Client.handle_mgr_conf ⟨"osd.0", 7, true⟩
        { msgr := ⟨1⟩, conn := some ⟨0, ⟨TYPE_LEGACY, 1⟩⟩, mgrmap := ⟨true, ⟨[⟨TYPE_LEGACY, 1⟩]⟩⟩,
          tick_period := 0, tick_timer := none, gate_closed := false } 5).st.tick_timer
      = some 5 :=
  ⟨rfl, rfl, by decide,
   (C6_handle_mgr_conf_ticks ⟨"osd.0", 7, true⟩
      { msgr := ⟨1⟩, conn := some ⟨0, ⟨TYPE_LEGACY, 1⟩⟩, mgrmap := ⟨true, ⟨[⟨TYPE_LEGACY, 1⟩]⟩⟩,
        tick_period := 0, tick_timer := none, gate_closed := false } 5 rfl rfl (by decide)).2.1⟩

/-! ## C7 -/

/-- C7: with the timer armed with delay `d`, a configuration with period 0 only
stores the period 0: every other member, the timer and its delay `d` included,
is as before, and the only call is the info log line (no tick, send, connect,
close or arm). -/
theorem C7_handle_mgr_conf_zero_keeps_timer (env : Env) (s : Client) (d : Nat)
    (ht : s.tick_timer = some d) :
    (s.handle_mgr_conf env 0).st = { s with tick_period := 0 }
    ∧ (s.handle_mgr_conf env 0).st.tick_timer = some d
    ∧ (s.handle_mgr_conf env 0).log = [.log_info]
    ∧ (s.handle_mgr_conf env 0).out = .ready := by
  simp [Client.handle_mgr_conf, ht]

/-- Witness for C7: timer armed with delay 10, stored period 10. -/
theorem C7_handle_mgr_conf_zero_keeps_timer_witness :
    (({ msgr := ⟨1⟩, conn := some ⟨0, ⟨TYPE_LEGACY, 1⟩⟩, mgrmap := ⟨true, ⟨[⟨TYPE_LEGACY, 1⟩]⟩⟩,
        tick_period := 10, tick_timer := some 10, gate_closed := false } : Client).tick_timer
        = some 10)
    ∧ (Client.handle_mgr_conf ⟨"osd.0", 7, true⟩
        { msgr := ⟨1⟩, conn := some ⟨0, ⟨TYPE_LEGACY, 1⟩⟩, mgrmap := ⟨true, ⟨[⟨TYPE_LEGACY, 1⟩]⟩⟩,
          tick_period := 10, tick_timer := some 10, gate_closed := false } 0).st.tick_timer
      = some 10
    ∧ (Client.handle_mgr_conf ⟨"osd.0", 7, true⟩
        { msgr := ⟨1⟩, conn := some ⟨0, ⟨TYPE_LEGACY, 1⟩⟩, mgrmap := ⟨true, ⟨[⟨TYPE_LEGACY, 1⟩]⟩⟩,
          tick_period := 10, tick_timer := some 10, gate_closed := false } 0).log
      = [.log_info] :=
  ⟨rfl,
   (C7_handle_mgr_conf_zero_keeps_timer ⟨"osd.0", 7, true⟩
      { msgr := ⟨1⟩, conn := some ⟨0, ⟨TYPE_LEGACY, 1⟩⟩, mgrmap := ⟨true, ⟨[⟨TYPE_LEGACY, 1⟩]⟩⟩,
        tick_period := 10, tick_timer := some 10, gate_closed := false } 10 rfl).2.1,
   (C7_handle_mgr_conf_zero_keeps_timer ⟨"osd.0", 7, true⟩
      { msgr := ⟨1⟩, conn := some ⟨0, ⟨TYPE_LEGACY, 1⟩⟩, mgrmap := ⟨true, ⟨[⟨TYPE_LEGACY, 1⟩]⟩⟩,
        tick_period := 10, tick_timer := some 10, gate_closed := false } 10 rfl).2.2.1⟩

end crimson.mgr

namespace crimson.mgr

/-! ## C8 -/

/-- C8: with the gate open, `tick()` completes whatever the outcome of its send
or of its reconnect (any `env.send_ok`), the period is the same at completion as
at entry, and the timer is armed with that period when it is not zero and not
touched when it is zero: so entered with the timer disarmed, as from both of
its callers, a zero period leaves it disarmed.  The same holds for a timer
firing, which disarms the timer before it runs `tick()`. -/
theorem C8_tick_rearms (env : Env) (s : Client) (hg : s.gate_closed = false) :
    (s.tick env).out = .ready
    ∧ (s.tick env).st.tick_period = s.tick_period
    ∧ (s.tick env).st.tick_timer =
        (if s.tick_period = 0 then s.tick_timer else some s.tick_period)
    ∧ (s.tick_period ≠ 0 → (s.tick env).st.tick_timer = some s.tick_period)
    ∧ (s.tick_period = 0 → s.tick_timer = none → (s.tick env).st.tick_timer = none)
    ∧ (s.tick env).log.filter Effect.isArm =
        (if s.tick_period = 0 then [] else [.timer_arm s.tick_timer.isSome s.tick_period])
    ∧ (∀ d : Nat, s.tick_timer = some d →
        (s.timer_fire env).st.tick_timer =
          (if s.tick_period = 0 then none else some s.tick_period)) := by
  refine ⟨?_, ?_, ?_, ?_, ?_, ?_, ?_⟩
  · cases hc : s.conn <;> simp [Client.tick, hg, hc]
  · cases hc : s.conn <;> by_cases hav : s.mgrmap.available = true <;>
      by_cases hp : s.tick_period = 0 <;>
      simp [Client.tick, Client.rearm, Client.reconnect, hg, hc, hav, hp]
  · cases hc : s.conn <;> by_cases hav : s.mgrmap.available = true <;>
      by_cases hp : s.tick_period = 0 <;>
      simp [Client.tick, Client.rearm, Client.reconnect, hg, hc, hav, hp]
  · intro hp
    cases hc : s.conn <;> by_cases hav : s.mgrmap.available = true <;>
      simp [Client.tick, Client.rearm, Client.reconnect, hg, hc, hav, hp]
  · intro hp ht
    cases hc : s.conn <;> by_cases hav : s.mgrmap.available = true <;>
      simp [Client.tick, Client.rearm, Client.reconnect, hg, hc, hav, hp, ht]
  · cases hc : s.conn <;> by_cases hav : s.mgrmap.available = true <;>
      by_cases hp : s.tick_period = 0 <;>
      simp [Client.tick, Client.rearm, Client.reconnect, Client.close_held, Effect.isArm,
        hg, hc, hav, hp]
  · intro d hd
    cases hc : s.conn <;> by_cases hav : s.mgrmap.available = true <;>
      by_cases hp : s.tick_period = 0 <;>
      simp [Client.timer_fire, Client.tick, Client.rearm, Client.reconnect, hg, hc, hav, hp, hd]

/-- Witness for C8: a Disconnected client with an unavailable map and period 3,
gate open, the send outcome set to failure. -/
theorem C8_tick_rearms_witness :
    (({ msgr := ⟨0⟩, conn := none, mgrmap := ⟨false, ⟨[]⟩⟩,
        tick_period := 3, tick_timer := none, gate_closed := false } : Client).gate_closed = false)
    ∧ (Client.tick ⟨"osd.0", 7, false⟩
        { msgr := ⟨0⟩, conn := none, mgrmap := ⟨false, ⟨[]⟩⟩,
          tick_period := 3, tick_timer := none, gate_closed := false }).st.tick_timer
      = (if (3 : Nat) = 0 then none else some 3) :=
  ⟨rfl,
   (C8_tick_rearms ⟨"osd.0", 7, false⟩
      { msgr := ⟨0⟩, conn := none, mgrmap := ⟨false, ⟨[]⟩⟩,
        tick_period := 3, tick_timer := none, gate_closed := false } rfl).2.2.1⟩

/-! ## C10 -/

/-- C10: when the stored map is available and its address list is not empty,
`reconnect()` closes the held connection if there is one, then makes exactly
one connect, whose target is the head of the list, then exactly one send, the
`MMgrOpen` on the new handle with the local name as daemon name, and ends
holding the new handle. -/
theorem C10_reconnect_first_addr (env : Env) (s : Client)
    (hav : s.mgrmap.available = true) (hne : s.mgrmap.active_addrs.v ≠ []) :
    (s.reconnect env).log =
        s.close_held ++
          [.msgr_connect (s.mgrmap.active_addrs.v.head hne) CEPH_ENTITY_TYPE_MGR
             ⟨s.msgr.next_id, s.mgrmap.active_addrs.v.head hne⟩,
           .send_mgr_open ⟨s.msgr.next_id, s.mgrmap.active_addrs.v.head hne⟩ env.name_id]
    ∧ (s.reconnect env).log.filter Effect.isOpen =
        [.msgr_connect (s.mgrmap.active_addrs.v.head hne) CEPH_ENTITY_TYPE_MGR
           ⟨s.msgr.next_id, s.mgrmap.active_addrs.v.head hne⟩]
    ∧ (s.reconnect env).log.filter Effect.isSend =
        [.send_mgr_open ⟨s.msgr.next_id, s.mgrmap.active_addrs.v.head hne⟩ env.name_id]
    ∧ (s.reconnect env).st.conn =
        some ⟨s.msgr.next_id, s.mgrmap.active_addrs.v.head hne⟩
    ∧ (s.reconnect env).st.mgrmap = s.mgrmap := by
  rw [reconnect_available env s hav, front_eq_head _ hne]
  cases hc : s.conn <;>
    simp [Client.close_held, Effect.isOpen, Effect.isSend, hc]

/-- Witness for C10: a held connection to address 1, stored map listing the
addresses 2 then 3; the connect goes to 2. -/
theorem C10_reconnect_first_addr_witness :
    (({ msgr := ⟨1⟩, conn := some ⟨0, ⟨TYPE_LEGACY, 1⟩⟩,
        mgrmap := ⟨true, ⟨[⟨TYPE_MSGR2, 2⟩, ⟨TYPE_LEGACY, 3⟩]⟩⟩,
        tick_period := 0, tick_timer := none, gate_closed := false } : Client).mgrmap.available
        = true)
    ∧ (({ msgr := ⟨1⟩, conn := some ⟨0, ⟨TYPE_LEGACY, 1⟩⟩,
            mgrmap := ⟨true, ⟨[⟨TYPE_MSGR2, 2⟩, ⟨TYPE_LEGACY, 3⟩]⟩⟩,
            tick_period := 0, tick_timer := none, gate_closed := false } : Client).mgrmap.active_addrs.v
        ≠ [])
    ∧ (Client.reconnect ⟨"osd.0", 7, true⟩
        { msgr := ⟨1⟩, conn := some ⟨0, ⟨TYPE_LEGACY, 1⟩⟩,
          mgrmap := ⟨true, ⟨[⟨TYPE_MSGR2, 2⟩, ⟨TYPE_LEGACY, 3⟩]⟩⟩,
          tick_period := 0, tick_timer := none, gate_closed := false }).st.conn
      = some ⟨1, ⟨TYPE_MSGR2, 2⟩⟩ :=
  ⟨rfl, by decide,
   (C10_reconnect_first_addr ⟨"osd.0", 7, true⟩
      { msgr := ⟨1⟩, conn := some ⟨0, ⟨TYPE_LEGACY, 1⟩⟩,
        mgrmap := ⟨true, ⟨[⟨TYPE_MSGR2, 2⟩, ⟨TYPE_LEGACY, 3⟩]⟩⟩,
        tick_period := 0, tick_timer := none, gate_closed := false } rfl (by decide)).2.2.2.1⟩

end crimson.mgr

namespace crimson.mgr

/-! ## C9 -/

end crimson.mgr

namespace crimson.mgr

/-! ## C11 -/

/-- C11: while the stored map is unavailable, whatever its address list holds,
`reconnect()`, `tick()`, a timer firing, `handle_mgr_conf` and
`ms_handle_reset` make no connect and send no `MMgrOpen`; and in every state a
map update whose map is unavailable makes no connect and sends no `MMgrOpen`
either. -/
theorem C11_unavailable_never_opens (env : Env) (s : Client) (p : Nat) (c : Connection)
    (h : s.mgrmap.available = false) :
    ((s.reconnect env).log.filter Effect.isOpen = []
      ∧ (s.reconnect env).log.filter Effect.isMgrOpen = [])
    ∧ ((s.tick env).log.filter Effect.isOpen = []
      ∧ (s.tick env).log.filter Effect.isMgrOpen = [])
    ∧ ((s.timer_fire env).log.filter Effect.isOpen = []
      ∧ (s.timer_fire env).log.filter Effect.isMgrOpen = [])
    ∧ ((s.handle_mgr_conf env p).log.filter Effect.isOpen = []
      ∧ (s.handle_mgr_conf env p).log.filter Effect.isMgrOpen = [])
    ∧ ((s.ms_handle_reset c).log.filter Effect.isOpen = []
      ∧ (s.ms_handle_reset c).log.filter Effect.isMgrOpen = [])
    ∧ (∀ (t : Client) (addrs : entity_addrvec_t),
        (t.handle_mgr_map env ⟨false, addrs⟩).log.filter Effect.isOpen = []
        ∧ (t.handle_mgr_map env ⟨false, addrs⟩).log.filter Effect.isMgrOpen = []) := by
  refine ⟨?_, ?_, ?_, ?_, ?_, ?_⟩
  · cases hc : s.conn <;>
      simp [Client.reconnect, Client.close_held, Effect.isOpen, Effect.isMgrOpen, h, hc]
  · cases hc : s.conn <;> cases hg : s.gate_closed <;> by_cases hp : s.tick_period = 0 <;>
      simp [Client.tick, Client.rearm, Client.reconnect, Client.close_held, Effect.isOpen,
        Effect.isMgrOpen, h, hc, hg, hp]
  · cases ht : s.tick_timer <;> cases hc : s.conn <;> cases hg : s.gate_closed <;>
      by_cases hp : s.tick_period = 0 <;>
      simp [Client.timer_fire, Client.tick, Client.rearm, Client.reconnect, Client.close_held,
        Effect.isOpen, Effect.isMgrOpen, h, hc, hg, hp, ht]
  · cases ht : s.tick_timer <;> cases hc : s.conn <;> cases hg : s.gate_closed <;>
      by_cases hp : p = 0 <;>
      simp [Client.handle_mgr_conf, Client.tick, Client.rearm, Client.reconnect,
        Client.close_held, Effect.isOpen, Effect.isMgrOpen, h, hc, hg, hp, ht]
  · by_cases hh : s.holds c = true <;> simp [Client.ms_handle_reset, hh]
  · intro t addrs
    cases hc : t.conn with
    | none =>
      simp [Client.handle_mgr_map, Client.reconnect, Client.close_held, Effect.isOpen,
        Effect.isMgrOpen, hc]
    | some d =>
      by_cases hp : d.peer_addr = addrs.legacy_addr <;>
        simp [Client.handle_mgr_map, Client.reconnect, Client.close_held, Effect.isOpen,
          Effect.isMgrOpen, hc, hp]

/-- Witness for C11: no connection held, unavailable map with a stale address,
period 5, gate open. -/
theorem C11_unavailable_never_opens_witness :
    (({ msgr := ⟨0⟩, conn := none, mgrmap := ⟨false, ⟨[⟨TYPE_LEGACY, 1⟩]⟩⟩,
        tick_period := 5, tick_timer := none, gate_closed := false } : Client).mgrmap.available
        = false)
    ∧ (Client.tick ⟨"osd.0", 7, true⟩
        { msgr := ⟨0⟩, conn := none, mgrmap := ⟨false, ⟨[⟨TYPE_LEGACY, 1⟩]⟩⟩,
          tick_period := 5, tick_timer := none, gate_closed := false }).log.filter Effect.isOpen
      = []
    ∧ (Client.tick ⟨"osd.0", 7, true⟩
        { msgr := ⟨0⟩, conn := none, mgrmap := ⟨false, ⟨[⟨TYPE_LEGACY, 1⟩]⟩⟩,
          tick_period := 5, tick_timer := none, gate_closed := false }).log.filter Effect.isMgrOpen
      = [] :=
  ⟨rfl,
   (C11_unavailable_never_opens ⟨"osd.0", 7, true⟩
      { msgr := ⟨0⟩, conn := none, mgrmap := ⟨false, ⟨[⟨TYPE_LEGACY, 1⟩]⟩⟩,
        tick_period := 5, tick_timer := none, gate_closed := false } 0 ⟨0, ⟨TYPE_LEGACY, 1⟩⟩
      rfl).2.1⟩

/-! ## C12 -/

/-- C12 as stated fails: the client holds connection 0; `ms_handle_reset` for
that handle clears the held handle to `none` and makes no call, so no close
was issued on the old handle. -/
theorem C12_counterexample_reset_clears_without_close :
    (Client.ms_handle_reset
        { msgr := ⟨1⟩, conn := some ⟨0, ⟨TYPE_LEGACY, 1⟩⟩, mgrmap := ⟨true, ⟨[⟨TYPE_LEGACY, 1⟩]⟩⟩,
          tick_period := 0, tick_timer := none, gate_closed := false }
        ⟨0, ⟨TYPE_LEGACY, 1⟩⟩).st.conn = none
    ∧ (Client.ms_handle_reset
        { msgr := ⟨1⟩, conn := some ⟨0, ⟨TYPE_LEGACY, 1⟩⟩, mgrmap := ⟨true, ⟨[⟨TYPE_LEGACY, 1⟩]⟩⟩,
          tick_period := 0, tick_timer := none, gate_closed := false }
        ⟨0, ⟨TYPE_LEGACY, 1⟩⟩).log = [] := by
  decide

/-- C12 (amended): holding a handle `c`, whenever `reconnect`,
`handle_mgr_map`, `tick` or `stop` ends with the held handle replaced by
another handle or cleared to `none`, a close on `c` is the first call the
operation made, and the connect that returned the new handle, when there is
one, comes after that close. -/
theorem C12_close_before_replace (env : Env) (s : Client) (c : Connection) (m : MgrMap)
    (hc : s.conn = some c) :
    ((s.reconnect env).st.conn ≠ some c →
        ∃ rest, (s.reconnect env).log = .conn_close c :: rest
          ∧ ∀ d, (s.reconnect env).st.conn = some d →
              .msgr_connect d.peer_addr CEPH_ENTITY_TYPE_MGR d ∈ rest)
    ∧ ((s.handle_mgr_map env m).st.conn ≠ some c →
        ∃ rest, (s.handle_mgr_map env m).log = .conn_close c :: rest
          ∧ ∀ d, (s.handle_mgr_map env m).st.conn = some d →
              .msgr_connect d.peer_addr CEPH_ENTITY_TYPE_MGR d ∈ rest)
    ∧ ((s.tick env).st.conn ≠ some c →
        ∃ rest, (s.tick env).log = .conn_close c :: rest
          ∧ ∀ d, (s.tick env).st.conn = some d →
              .msgr_connect d.peer_addr CEPH_ENTITY_TYPE_MGR d ∈ rest)
    ∧ ((s.stop).st.conn ≠ some c →
        ∃ rest, (s.stop).log = .conn_close c :: rest
          ∧ ∀ d, (s.stop).st.conn = some d →
              .msgr_connect d.peer_addr CEPH_ENTITY_TYPE_MGR d ∈ rest) := by
  have hrec : ∀ t : Client, t.conn = some c → t.mgrmap.available = true →
      ∃ rest, (t.reconnect env).log = .conn_close c :: rest
        ∧ ∀ d, (t.reconnect env).st.conn = some d →
            .msgr_connect d.peer_addr CEPH_ENTITY_TYPE_MGR d ∈ rest := by
    intro t htc hav
    refine ⟨[.msgr_connect t.mgrmap.active_addrs.front CEPH_ENTITY_TYPE_MGR
               ⟨t.msgr.next_id, t.mgrmap.active_addrs.front⟩,
             .send_mgr_open ⟨t.msgr.next_id, t.mgrmap.active_addrs.front⟩ env.name_id], ?_, ?_⟩
    · simp [reconnect_available env t hav, Client.close_held, htc]
    · intro d hd
      simp only [reconnect_available env t hav, Option.some.injEq] at hd
      subst hd
      simp
  refine ⟨?_, ?_, ?_, ?_⟩
  · by_cases hav : s.mgrmap.available = true
    · intro _
      exact hrec s hc hav
    · intro hne
      exact absurd (by simp [Client.reconnect, hav, hc]) hne
  · by_cases hp : c.peer_addr = m.active_addrs.legacy_addr
    · intro hne
      exact absurd (by simp [Client.handle_mgr_map, hc, hp]) hne
    · by_cases hav : m.available = true
      · intro _
        have hr : s.handle_mgr_map env m = Client.reconnect env { s with mgrmap := m } := by
          simp [Client.handle_mgr_map, hc, hp]
        rw [hr]
        exact hrec { s with mgrmap := m } hc hav
      · intro hne
        exact absurd (by simp [Client.handle_mgr_map, Client.reconnect, hav, hc, hp]) hne
  · intro hne
    refine absurd ?_ hne
    cases hg : s.gate_closed <;> by_cases hp : s.tick_period = 0 <;>
      simp [Client.tick, Client.rearm, hc, hg, hp]
  · intro hne
    exact absurd (by simp [Client.stop, hc]) hne

/-- Witness for C12 (amended): connection 0 to the legacy address 1, update
naming the legacy address 2: the held handle becomes connection 1, after the
close on connection 0 and the connect. -/
theorem C12_close_before_replace_witness :
    (({ msgr := ⟨1⟩, conn := some ⟨0, ⟨TYPE_LEGACY, 1⟩⟩, mgrmap := ⟨true, ⟨[⟨TYPE_LEGACY, 1⟩]⟩⟩,
        tick_period := 0, tick_timer := none, gate_closed := false } : Client).conn
        = some ⟨0, ⟨TYPE_LEGACY, 1⟩⟩)
    ∧ (Client.handle_mgr_map ⟨"osd.0", 7, true⟩
        { msgr := ⟨1⟩, conn := some ⟨0, ⟨TYPE_LEGACY, 1⟩⟩, mgrmap := ⟨true, ⟨[⟨TYPE_LEGACY, 1⟩]⟩⟩,
          tick_period := 0, tick_timer := none, gate_closed := false }
        ⟨true, ⟨[⟨TYPE_LEGACY, 2⟩]⟩⟩).st.conn = some ⟨1, ⟨TYPE_LEGACY, 2⟩⟩
    ∧ (∃ rest,
        (Client.handle_mgr_map ⟨"osd.0", 7, true⟩
          { msgr := ⟨1⟩, conn := some ⟨0, ⟨TYPE_LEGACY, 1⟩⟩,
            mgrmap := ⟨true, ⟨[⟨TYPE_LEGACY, 1⟩]⟩⟩,
            tick_period := 0, tick_timer := none, gate_closed := false }
          ⟨true, ⟨[⟨TYPE_LEGACY, 2⟩]⟩⟩).log = .conn_close ⟨0, ⟨TYPE_LEGACY, 1⟩⟩ :: rest
        ∧ ∀ d,
            (Client.handle_mgr_map ⟨"osd.0", 7, true⟩
              { msgr := ⟨1⟩, conn := some ⟨0, ⟨TYPE_LEGACY, 1⟩⟩,
                mgrmap := ⟨true, ⟨[⟨TYPE_LEGACY, 1⟩]⟩⟩,
                tick_period := 0, tick_timer := none, gate_closed := false }
              ⟨true, ⟨[⟨TYPE_LEGACY, 2⟩]⟩⟩).st.conn = some d →
            .msgr_connect d.peer_addr CEPH_ENTITY_TYPE_MGR d ∈ rest) :=
  ⟨rfl, by decide,
   (C12_close_before_replace ⟨"osd.0", 7, true⟩
      { msgr := ⟨1⟩, conn := some ⟨0, ⟨TYPE_LEGACY, 1⟩⟩, mgrmap := ⟨true, ⟨[⟨TYPE_LEGACY, 1⟩]⟩⟩,
        tick_period := 0, tick_timer := none, gate_closed := false }
      ⟨0, ⟨TYPE_LEGACY, 1⟩⟩ ⟨true, ⟨[⟨TYPE_LEGACY, 2⟩]⟩⟩ rfl).2.1 (by decide)⟩

end crimson.mgr

namespace crimson.mgr

/-! ## C13 -/

/-- One input keeps the live connections within the held handle: when every
live connection is the one `conn` points to before the input is handled, the
same holds after it. -/
theorem step_live_held (env : Env) (s : Client) (i : Input) (live : List Nat)
    (h : live = [] ∨ ∃ c, s.conn = some c ∧ live = [c.id]) :
    (s.step env i).log.foldl Effect.live (i.live live) = []
      ∨ ∃ c, (s.step env i).st.conn = some c
          ∧ (s.step env i).log.foldl Effect.live (i.live live) = [c.id] := by
  rcases h with rfl | ⟨c, hc, rfl⟩
  · cases i with
    | stop =>
      cases hc : s.conn <;> simp [Client.step, Client.stop, Input.live, Effect.live, hc]
    | event e =>
      cases e with
      | map_update m =>
        cases hc : s.conn with
        | none =>
          by_cases hav : m.available = true <;>
            simp [Client.step, Client.handle, Client.handle_mgr_map, Client.reconnect,
              Client.close_held, Messenger.connect, Input.live, Effect.live, hc, hav]
        | some d =>
          by_cases hp : d.peer_addr = m.active_addrs.legacy_addr <;>
            by_cases hav : m.available = true <;>
            simp [Client.step, Client.handle, Client.handle_mgr_map, Client.reconnect,
              Client.close_held, Messenger.connect, Input.live, Effect.live, hc, hav, hp]
      | configure p =>
        cases hc : s.conn <;> cases hg : s.gate_closed <;> cases ht : s.tick_timer <;>
          by_cases hp : p = 0 <;> by_cases hav : s.mgrmap.available = true <;>
          simp [Client.step, Client.handle, Client.handle_mgr_conf, Client.tick, Client.rearm,
            Client.reconnect, Client.close_held, Messenger.connect, Input.live, Effect.live,
            hc, hg, ht, hp, hav]
      | reset d =>
        by_cases hh : s.holds d = true <;>
          simp [Client.step, Client.handle, Client.ms_handle_reset, Input.live, hh]
      | timer =>
        cases hc : s.conn <;> cases hg : s.gate_closed <;> cases ht : s.tick_timer <;>
          by_cases hp : s.tick_period = 0 <;> by_cases hav : s.mgrmap.available = true <;>
          simp [Client.step, Client.handle, Client.timer_fire, Client.tick, Client.rearm,
            Client.reconnect, Client.close_held, Messenger.connect, Input.live, Effect.live,
            hc, hg, ht, hp, hav]
  · cases i with
    | stop =>
      simp [Client.step, Client.stop, Input.live, Effect.live, hc]
    | event e =>
      cases e with
      | map_update m =>
        by_cases hp : c.peer_addr = m.active_addrs.legacy_addr <;>
          by_cases hav : m.available = true <;>
          simp [Client.step, Client.handle, Client.handle_mgr_map, Client.reconnect,
            Client.close_held, Messenger.connect, Input.live, Effect.live, hc, hav, hp]
      | configure p =>
        cases hg : s.gate_closed <;> cases ht : s.tick_timer <;>
          by_cases hp : p = 0 <;>
          simp [Client.step, Client.handle, Client.handle_mgr_conf, Client.tick, Client.rearm,
            Input.live, Effect.live, hc, hg, ht, hp]
      | reset d =>
        by_cases hid : c.id = d.id <;>
          simp [Client.step, Client.handle, Client.ms_handle_reset, Client.holds, Input.live,
            hc, hid]
      | timer =>
        cases hg : s.gate_closed <;> cases ht : s.tick_timer <;>
          by_cases hp : s.tick_period = 0 <;>
          simp [Client.step, Client.handle, Client.timer_fire, Client.tick, Client.rearm,
            Input.live, Effect.live, hc, hg, ht, hp]

/-- Along a sequence of inputs every live connection is the held one. -/
theorem runLive_held (is : List (Env × Input)) :
    ∀ (s : Client) (live : List Nat),
      (live = [] ∨ ∃ c, s.conn = some c ∧ live = [c.id]) →
      ((s.runLive live is).2 = []
        ∨ ∃ c, (s.runLive live is).1.conn = some c ∧ (s.runLive live is).2 = [c.id]) := by
  induction is with
  | nil => intro s live h; simpa [Client.runLive] using h
  | cons p is ih =>
    intro s live h
    obtain ⟨env, i⟩ := p
    simpa [Client.runLive] using ih _ _ (step_live_held env s i live h)

/-- C13: from the initial state, with no connection live, after any sequence
of map updates, configurations, reset notifications, timer firings and calls of
`stop()`, each handled to completion, at most one connection is live, and a
live connection is the one the client holds. -/
theorem C13_at_most_one_live (msgr : Messenger) (is : List (Env × Input)) :
    ((Client.init msgr).runLive [] is).2.length ≤ 1
    ∧ (((Client.init msgr).runLive [] is).2 = []
        ∨ ∃ c, ((Client.init msgr).runLive [] is).1.conn = some c
            ∧ ((Client.init msgr).runLive [] is).2 = [c.id]) := by
  have h := runLive_held is (Client.init msgr) [] (Or.inl rfl)
  refine ⟨?_, h⟩
  rcases h with h | ⟨c, _, h⟩ <;> simp [h]

end crimson.mgr

namespace crimson.mgr

/-! ## C14 -/

/-- C14: `handle_mgr_conf` stores the period of the message, in every state;
`handle_mgr_map`, `ms_handle_reset`, `reconnect`, `tick`, a timer firing,
`start` and `stop` leave the period as it was, in every state. -/
theorem C14_period_only_set_by_conf (env : Env) (s : Client) (p : Nat) (m : MgrMap)
    (c : Connection) :
    (s.handle_mgr_conf env p).st.tick_period = p
    ∧ (s.handle_mgr_map env m).st.tick_period = s.tick_period
    ∧ (s.ms_handle_reset c).st.tick_period = s.tick_period
    ∧ (s.reconnect env).st.tick_period = s.tick_period
    ∧ (s.tick env).st.tick_period = s.tick_period
    ∧ (s.timer_fire env).st.tick_period = s.tick_period
    ∧ (s.start).st.tick_period = s.tick_period
    ∧ (s.stop).st.tick_period = s.tick_period := by
  have hrec : ∀ t : Client, (t.reconnect env).st.tick_period = t.tick_period := by
    intro t
    by_cases hav : t.mgrmap.available = true <;> simp [Client.reconnect, hav]
  have htick : ∀ t : Client, (t.tick env).st.tick_period = t.tick_period := by
    intro t
    cases hc : t.conn <;> cases hg : t.gate_closed <;> by_cases hp : t.tick_period = 0 <;>
      by_cases hav : t.mgrmap.available = true <;>
      simp [Client.tick, Client.rearm, Client.reconnect, hc, hg, hp, hav]
  refine ⟨?_, ?_, ?_, hrec s, htick s, ?_, rfl, ?_⟩
  · unfold Client.handle_mgr_conf
    dsimp only
    split
    · exact htick { s with tick_period := p }
    · rfl
  · cases hc : s.conn with
    | none => simp only [Client.handle_mgr_map, hc]; exact hrec _
    | some d =>
      by_cases hp : d.peer_addr = m.active_addrs.legacy_addr
      · simp [Client.handle_mgr_map, hc, hp]
      · simp only [Client.handle_mgr_map, hc, ne_eq, hp, not_false_eq_true, if_true]
        exact hrec _
  · by_cases hh : s.holds c = true <;> simp [Client.ms_handle_reset, hh]
  · cases ht : s.tick_timer with
    | none => simp [Client.timer_fire, ht]
    | some d => simp only [Client.timer_fire, ht]; exact htick _
  · cases hc : s.conn <;> simp [Client.stop, hc]

/-! ## C15 -/

/-- C15: `ms_dispatch` on an `MMgrMap` is `handle_mgr_map` on its map, on an
`MMgrConfigure` it is `handle_mgr_conf` on its period, and on any other message
it resolves, makes no call and leaves every member of the client as it was. -/
theorem C15_ms_dispatch_routes (env : Env) (s : Client) (m : MgrMap) (p : Nat) (t : Nat) :
    s.ms_dispatch env (.MMgrMap m) = s.handle_mgr_map env m
    ∧ s.ms_dispatch env (.MMgrConfigure p) = s.handle_mgr_conf env p
    ∧ (s.ms_dispatch env (.other t)).out = .ready
    ∧ (s.ms_dispatch env (.other t)).log = []
    ∧ (s.ms_dispatch env (.other t)).st = s := by
  simp [Client.ms_dispatch]

/-! ## C16 -/

/-- C16: with the gate open, `tick()` holding a connection `c` makes one send,
of the statistics message of the statistics source, on `c`, and no connect or
close; holding none, its calls are those of one `reconnect()`, the arming of
the timer apart, and no statistics send is among them. -/
theorem C16_tick_by_connection_state (env : Env) (s : Client) (hg : s.gate_closed = false) :
    (∀ c : Connection, s.conn = some c →
        (s.tick env).log = .send_stats c env.pg_stats :: s.rearm.2
        ∧ (s.tick env).log.filter Effect.isSend = [.send_stats c env.pg_stats]
        ∧ (s.tick env).log.filter Effect.isOpen = []
        ∧ (s.tick env).log.filter Effect.isClose = []
        ∧ (s.tick env).st.conn = some c)
    ∧ (s.conn = none →
        (s.tick env).log = (s.reconnect env).log ++ (s.reconnect env).st.rearm.2
        ∧ (s.tick env).st = (s.reconnect env).st.rearm.1
        ∧ (s.tick env).log.filter Effect.isStatsSend = []
        ∧ (s.tick env).log.filter Effect.isOpen = (s.reconnect env).log.filter Effect.isOpen
        ∧ (s.tick env).log.filter Effect.isSend = (s.reconnect env).log.filter Effect.isSend) := by
  refine ⟨?_, ?_⟩
  · intro c hc
    by_cases hp : s.tick_period = 0 <;>
      simp [Client.tick, Client.rearm, Effect.isSend, Effect.isOpen, Effect.isClose, hg, hc, hp]
  · intro hc
    by_cases hp : s.tick_period = 0 <;> by_cases hav : s.mgrmap.available = true <;>
      simp [Client.tick, Client.rearm, Client.reconnect, Client.close_held, Effect.isSend,
        Effect.isOpen, Effect.isStatsSend, hg, hc, hp, hav]

/-- Witness for C16: a held connection, gate open, period 5, statistics message 7. -/
theorem C16_tick_by_connection_state_witness :
    (({ msgr := ⟨1⟩, conn := some ⟨0, ⟨TYPE_LEGACY, 1⟩⟩, mgrmap := ⟨true, ⟨[⟨TYPE_LEGACY, 1⟩]⟩⟩,
        tick_period := 5, tick_timer := none, gate_closed := false } : Client).gate_closed = false)
    ∧ (Client.tick ⟨"osd.0", 7, true⟩
        { msgr := ⟨1⟩, conn := some ⟨0, ⟨TYPE_LEGACY, 1⟩⟩, mgrmap := ⟨true, ⟨[⟨TYPE_LEGACY, 1⟩]⟩⟩,
          tick_period := 5, tick_timer := none, gate_closed := false }).log.filter Effect.isSend
      = [.send_stats ⟨0, ⟨TYPE_LEGACY, 1⟩⟩ 7] :=
  ⟨rfl,
   ((C16_tick_by_connection_state ⟨"osd.0", 7, true⟩
      { msgr := ⟨1⟩, conn := some ⟨0, ⟨TYPE_LEGACY, 1⟩⟩, mgrmap := ⟨true, ⟨[⟨TYPE_LEGACY, 1⟩]⟩⟩,
        tick_period := 5, tick_timer := none, gate_closed := false } rfl).1
      ⟨0, ⟨TYPE_LEGACY, 1⟩⟩ rfl).2.1⟩

end crimson.mgr

namespace crimson.mgr

/-! ## C17 -/

/-- When `front()` and `legacy_addr()` of an available map agree, a second
handling of the same map update makes no call and changes nothing. -/
theorem handle_mgr_map_again_same_target (e1 e2 : Env) (s : Client) (m : MgrMap)
    (hav : m.available = true) (hfl : m.active_addrs.front = m.active_addrs.legacy_addr) :
    (s.handle_mgr_map e1 m).st.handle_mgr_map e2 m = ⟨(s.handle_mgr_map e1 m).st, [], .ready⟩ := by
  cases hc : s.conn with
  | none =>
    simp [Client.handle_mgr_map, Client.reconnect, Messenger.connect, hc, hav, hfl]
  | some c =>
    by_cases hp : c.peer_addr = m.active_addrs.legacy_addr
    · simp [Client.handle_mgr_map, hc, hp]
    · simp [Client.handle_mgr_map, Client.reconnect, Messenger.connect, hc, hav, hfl, hp]

/-- C17 (the code departs from the claim): the map `m` is available and lists
the msgr2 address 1, then the legacy address 2.  From the initial state,
handling `m` once makes one connect, to the msgr2 address (`front()`), and one
`MMgrOpen` send; the held peer then differs from `legacy_addr()` of `m`, the
address the handler compares with, so handling `m` a second time closes that
connection, connects again and sends the `MMgrOpen` again. -/
theorem C17_same_update_twice_reconnects :
    ((Client.init ⟨0⟩).run
        [(⟨"osd.0", 7, true⟩, .map_update ⟨true, ⟨[⟨TYPE_MSGR2, 1⟩, ⟨TYPE_LEGACY, 2⟩]⟩⟩)]).2 =
      [.msgr_connect ⟨TYPE_MSGR2, 1⟩ CEPH_ENTITY_TYPE_MGR ⟨0, ⟨TYPE_MSGR2, 1⟩⟩,
       .send_mgr_open ⟨0, ⟨TYPE_MSGR2, 1⟩⟩ "osd.0"]
    ∧ ((Client.init ⟨0⟩).run
        [(⟨"osd.0", 7, true⟩, .map_update ⟨true, ⟨[⟨TYPE_MSGR2, 1⟩, ⟨TYPE_LEGACY, 2⟩]⟩⟩)]).1.conn =
      some ⟨0, ⟨TYPE_MSGR2, 1⟩⟩
    ∧ (⟨true, ⟨[⟨TYPE_MSGR2, 1⟩, ⟨TYPE_LEGACY, 2⟩]⟩⟩ : MgrMap).active_addrs.legacy_addr =
      ⟨TYPE_LEGACY, 2⟩
    ∧ ((Client.init ⟨0⟩).run
        [(⟨"osd.0", 7, true⟩, .map_update ⟨true, ⟨[⟨TYPE_MSGR2, 1⟩, ⟨TYPE_LEGACY, 2⟩]⟩⟩),
         (⟨"osd.0", 7, true⟩, .map_update ⟨true, ⟨[⟨TYPE_MSGR2, 1⟩, ⟨TYPE_LEGACY, 2⟩]⟩⟩)]).2 =
      [.msgr_connect ⟨TYPE_MSGR2, 1⟩ CEPH_ENTITY_TYPE_MGR ⟨0, ⟨TYPE_MSGR2, 1⟩⟩,
       .send_mgr_open ⟨0, ⟨TYPE_MSGR2, 1⟩⟩ "osd.0",
       .conn_close ⟨0, ⟨TYPE_MSGR2, 1⟩⟩,
       .msgr_connect ⟨TYPE_MSGR2, 1⟩ CEPH_ENTITY_TYPE_MGR ⟨1, ⟨TYPE_MSGR2, 1⟩⟩,
       .send_mgr_open ⟨1, ⟨TYPE_MSGR2, 1⟩⟩ "osd.0"] := by
  decide

/-! ## C18 -/

/-- No entry point arms the timer while it is armed, whatever the state. -/
theorem handle_never_arms_armed (env : Env) (s : Client) (e : Event) :
    (s.handle env e).log.filter Effect.isArmWhileArmed = [] := by
  cases e with
  | map_update m =>
    cases hc : s.conn with
    | none =>
      by_cases hav : m.available = true <;>
        simp [Client.handle, Client.handle_mgr_map, Client.reconnect, Client.close_held,
          Effect.isArmWhileArmed, hc, hav]
    | some d =>
      by_cases hp : d.peer_addr = m.active_addrs.legacy_addr <;>
        by_cases hav : m.available = true <;>
        simp [Client.handle, Client.handle_mgr_map, Client.reconnect, Client.close_held,
          Effect.isArmWhileArmed, hc, hav, hp]
  | configure p =>
    cases hc : s.conn <;> cases hg : s.gate_closed <;> cases ht : s.tick_timer <;>
      by_cases hp : p = 0 <;> by_cases hav : s.mgrmap.available = true <;>
      simp [Client.handle, Client.handle_mgr_conf, Client.tick, Client.rearm,
        Client.reconnect, Client.close_held, Effect.isArmWhileArmed, hc, hg, ht, hp, hav]
  | reset d =>
    by_cases hh : s.holds d = true <;> simp [Client.handle, Client.ms_handle_reset, hh]
  | timer =>
    cases hc : s.conn <;> cases hg : s.gate_closed <;> cases ht : s.tick_timer <;>
      by_cases hp : s.tick_period = 0 <;> by_cases hav : s.mgrmap.available = true <;>
      simp [Client.handle, Client.timer_fire, Client.tick, Client.rearm,
        Client.reconnect, Client.close_held, Effect.isArmWhileArmed, hc, hg, ht, hp, hav]

/-- C18: along any sequence of map updates, configurations, resets and timer
firings, each handled to completion, from any state, no call of
`tick_timer.arm` is made while the timer is armed: `handle_mgr_conf` runs
`tick()` only with the timer disarmed, and a firing disarms the timer before
its `tick()` arms it again. -/
theorem C18_arm_only_when_disarmed (es : List (Env × Event)) (s : Client) :
    (s.run es).2.filter Effect.isArmWhileArmed = [] := by
  induction es generalizing s with
  | nil => simp [Client.run]
  | cons p es ih =>
    obtain ⟨env, e⟩ := p
    simp [Client.run, List.filter_append, handle_never_arms_armed, ih]

/-! ## C19 -/

/-- The stored map after an event: the map of a map update, else the map
stored before. -/
theorem handle_mgrmap (env : Env) (s : Client) (e : Event) :
    (s.handle env e).st.mgrmap =
      (match e with
       | .map_update m => m
       | _ => s.mgrmap) := by
  cases e with
  | map_update m =>
    cases hc : s.conn with
    | none =>
      by_cases hav : m.available = true <;>
        simp [Client.handle, Client.handle_mgr_map, Client.reconnect, hc, hav]
    | some d =>
      by_cases hp : d.peer_addr = m.active_addrs.legacy_addr <;>
        by_cases hav : m.available = true <;>
        simp [Client.handle, Client.handle_mgr_map, Client.reconnect, hc, hav, hp]
  | configure p =>
    cases hc : s.conn <;> cases hg : s.gate_closed <;> cases ht : s.tick_timer <;>
      by_cases hp : p = 0 <;> by_cases hav : s.mgrmap.available = true <;>
      simp [Client.handle, Client.handle_mgr_conf, Client.tick, Client.rearm,
        Client.reconnect, hc, hg, ht, hp, hav]
  | reset d =>
    by_cases hh : s.holds d = true <;> simp [Client.handle, Client.ms_handle_reset, hh]
  | timer =>
    cases hc : s.conn <;> cases hg : s.gate_closed <;> cases ht : s.tick_timer <;>
      by_cases hp : s.tick_period = 0 <;> by_cases hav : s.mgrmap.available = true <;>
      simp [Client.handle, Client.timer_fire, Client.tick, Client.rearm,
        Client.reconnect, hc, hg, ht, hp, hav]

/-- When the stored map and the map of every update name a target, so does the
stored map after the sequence. -/
theorem run_hasTarget (es : List (Env × Event)) :
    ∀ s : Client, s.mgrmap.hasTarget = true → es.all (fun p => p.2.hasTarget) = true →
      (s.run es).1.mgrmap.hasTarget = true := by
  induction es with
  | nil => intro s hs _; simpa [Client.run] using hs
  | cons p es ih =>
    intro s hs hes
    obtain ⟨env, e⟩ := p
    simp only [List.all_cons, Bool.and_eq_true] at hes
    have h1 : (s.handle env e).st.mgrmap.hasTarget = true := by
      rw [handle_mgrmap]
      cases e with
      | map_update m => simpa [Event.hasTarget] using hes.1
      | configure p => exact hs
      | reset d => exact hs
      | timer => exact hs
    simpa [Client.run] using ih _ h1 hes.2

/-- C19 as stated fails: from the initial state the update `{available: true,
addrs: []}` is stored and `reconnect()` reaches its connect step with an empty
address list; `front()` of the empty list is the default address and the
connect goes there. -/
theorem C19_counterexample_available_empty_list :
    ((Client.init ⟨0⟩).run
        [(⟨"osd.0", 7, true⟩, .map_update ⟨true, ⟨[]⟩⟩)]).1.mgrmap.available = true
    ∧ ((Client.init ⟨0⟩).run
        [(⟨"osd.0", 7, true⟩, .map_update ⟨true, ⟨[]⟩⟩)]).1.mgrmap.active_addrs.v = []
    ∧ ((Client.init ⟨0⟩).run
        [(⟨"osd.0", 7, true⟩, .map_update ⟨true, ⟨[]⟩⟩)]).2 =
      [.msgr_connect entity_addr_t.blank CEPH_ENTITY_TYPE_MGR ⟨0, entity_addr_t.blank⟩,
       .send_mgr_open ⟨0, entity_addr_t.blank⟩ "osd.0"] := by
  decide

/-- C19 (amended): when every map update of the sequence is unavailable or has
a non-empty address list, then in the state reached from the initial state by
the sequence of map updates, configurations, resets and timer firings an
available stored map has a non-empty address list, and `reconnect()` run there
makes its one connect to the head of that list. -/
theorem C19_target_nonempty (msgr : Messenger) (es : List (Env × Event))
    (hes : es.all (fun p => p.2.hasTarget) = true) :
    (((Client.init msgr).run es).1.mgrmap.available = true →
        ((Client.init msgr).run es).1.mgrmap.active_addrs.v ≠ [])
    ∧ (∀ env : Env, ((Client.init msgr).run es).1.mgrmap.available = true →
        ∃ h : ((Client.init msgr).run es).1.mgrmap.active_addrs.v ≠ [],
          (((Client.init msgr).run es).1.reconnect env).log.filter Effect.isOpen =
            [.msgr_connect (((Client.init msgr).run es).1.mgrmap.active_addrs.v.head h)
               CEPH_ENTITY_TYPE_MGR
               ⟨((Client.init msgr).run es).1.msgr.next_id,
                ((Client.init msgr).run es).1.mgrmap.active_addrs.v.head h⟩]) := by
  have h0 : (Client.init msgr).mgrmap.hasTarget = true := by
    simp [Client.init, MgrMap.hasTarget]
  have h := run_hasTarget es (Client.init msgr) h0 hes
  have hne : ((Client.init msgr).run es).1.mgrmap.available = true →
      ((Client.init msgr).run es).1.mgrmap.active_addrs.v ≠ [] := by
    intro hav
    simpa [MgrMap.hasTarget, hav] using h
  refine ⟨hne, ?_⟩
  intro env hav
  refine ⟨hne hav, ?_⟩
  rw [reconnect_available env _ hav, front_eq_head _ (hne hav)]
  cases hc : ((Client.init msgr).run es).1.conn <;>
    simp [Client.close_held, Effect.isOpen, hc]

/-- Witness for C19 (amended): an unavailable update with an empty list, then an
available update listing the legacy address 1; the stored map is then available
and its list is not empty. -/
theorem C19_target_nonempty_witness :
    ([((⟨"osd.0", 7, true⟩ : Env), Event.map_update ⟨false, ⟨[]⟩⟩),
      ((⟨"osd.0", 7, true⟩ : Env), Event.map_update ⟨true, ⟨[⟨TYPE_LEGACY, 1⟩]⟩⟩)].all
        (fun p => p.2.hasTarget) = true)
    ∧ ((Client.init ⟨0⟩).run
        [((⟨"osd.0", 7, true⟩ : Env), Event.map_update ⟨false, ⟨[]⟩⟩),
         ((⟨"osd.0", 7, true⟩ : Env), Event.map_update ⟨true, ⟨[⟨TYPE_LEGACY, 1⟩]⟩⟩)]).1.mgrmap.available
          = true
    ∧ ((Client.init ⟨0⟩).run
        [((⟨"osd.0", 7, true⟩ : Env), Event.map_update ⟨false, ⟨[]⟩⟩),
         ((⟨"osd.0", 7, true⟩ : Env), Event.map_update ⟨true, ⟨[⟨TYPE_LEGACY, 1⟩]⟩⟩)]).1.mgrmap.active_addrs.v
          ≠ [] :=
  ⟨by decide, by decide,
   (C19_target_nonempty ⟨0⟩
      [((⟨"osd.0", 7, true⟩ : Env), Event.map_update ⟨false, ⟨[]⟩⟩),
       ((⟨"osd.0", 7, true⟩ : Env), Event.map_update ⟨true, ⟨[⟨TYPE_LEGACY, 1⟩]⟩⟩)]
      (by decide)).1 (by decide)⟩

end crimson.mgr
